import Mathlib

/-! Verification of the agnostic-agent-api core: the directory's
trust-filtered discovery, the two suppliers' negotiate/commit offer
ledgers, the client's canonical-serialization task signing, and the
orchestrator's signed-task pass-through.

Python dictionaries are embedded as association lists over `String`
keys (`dlookup` / `dinsert` / `derase` mirror `d[k]`, `d[k] = v`,
`d.pop(k)`); a well-formed dictionary has no duplicate keys
(`NodupKeys`).  Fallible foreign calls (Ed25519 signing, base64
encoding) are embedded as `Option`-valued oracles, a `none` result
standing for a raised exception.  Fresh `uuid.uuid4()` values are
passed in as explicit string arguments. -/

namespace AgentApi

/-- Error raised through FastAPI's HTTPException: an HTTP status code
and a detail string. -/
structure HErr where
  status : Nat
  detail : String
deriving Repr, DecidableEq

/-- Python dict lookup `d.get(k)` / `k in d` on an association list. -/
def dlookup (k : String) : List (String × α) → Option α
  | [] => none
  | (k₂, v) :: rest => if k₂ = k then some v else dlookup k rest

/-- Python dict assignment `d[k] = v`: replace in place if the key is
present, otherwise append at the end (dicts preserve insertion order). -/
def dinsert (k : String) (v : α) : List (String × α) → List (String × α)
  | [] => [(k, v)]
  | (k₂, w) :: rest => if k₂ = k then (k, v) :: rest else (k₂, w) :: dinsert k v rest

/-- Python dict removal `d.pop(k)`: drop the entry with key `k`. -/
def derase (k : String) : List (String × α) → List (String × α)
  | [] => []
  | (k₂, w) :: rest => if k₂ = k then rest else (k₂, w) :: derase k rest

/-- Well-formedness invariant of the association-list embedding of a
Python dict: keys are pairwise distinct. -/
def NodupKeys (l : List (String × α)) : Prop := (l.map Prod.fst).Nodup

/-! ## agent_directory.py -/

namespace Directory

/-- SupplierInfo schema from agent_directory.py. -/
structure SupplierInfo where
  supplierId : String
  name : String
  baseUrl : String
  supportedServices : List String
  isVerified : Bool
deriving Repr, DecidableEq

/-- DiscoveryResponse schema from agent_directory.py. -/
structure DiscoveryResponse where
  serviceType : String
  suppliers : List SupplierInfo
deriving Repr, DecidableEq

def API_KEY_NAME : String := "X-ATP-Directory-Key"

def DIRECTORY_API_KEY : String := "dummy-secret-key-12345"

/-- FastAPI `APIKeyHeader(name=API_KEY_NAME, auto_error=True)`: when the
header is absent (or empty) FastAPI raises HTTP 403 "Not authenticated"
before the dependency body ever runs; otherwise the header value is
passed on. -/
def api_key_header (header : Option String) : Except HErr String :=
  match header with
  | none => .error ⟨403, "Not authenticated"⟩
  | some k => if k = "" then .error ⟨403, "Not authenticated"⟩ else .ok k

/-- Dependency function `get_api_key` from agent_directory.py: the
presented key must equal `DIRECTORY_API_KEY`, otherwise HTTP 403. -/
def get_api_key (header : Option String) : Except HErr String :=
  match api_key_header header with
  | .error e => .error e
  | .ok api_key =>
    if api_key = DIRECTORY_API_KEY then .ok api_key
    else .error ⟨403, "Invalid or missing API Key"⟩

/-- The in-memory registry `REGISTERED_SUPPLIERS` from agent_directory.py,
as the insertion-ordered list of its values (the dict keys repeat the
`supplierId` fields). -/
def REGISTERED_SUPPLIERS : List SupplierInfo :=
  [ { supplierId := "urn:as:flight-supplier-demo:001",
      name := "Demo Flight Supplier (AS)",
      baseUrl := "http://127.0.0.1:8000",
      supportedServices := ["booking:flight", "booking:hotel"],
      isVerified := true },
    { supplierId := "urn:as:weather-supplier-demo:002",
      name := "Demo Weather Supplier",
      baseUrl := "http://127.0.0.1:8002",
      supportedServices := ["weather:forecast"],
      isVerified := true },
    { supplierId := "urn:as:airdemo-competitor:003",
      name := "AirDemo (Competitor)",
      baseUrl := "http://127.0.0.1:8003",
      supportedServices := ["booking:flight"],
      isVerified := true },
    { supplierId := "urn:as:unverified-flyer:004",
      name := "FlyByNight Airways (Unverified)",
      baseUrl := "http://127.0.0.1:8004",
      supportedServices := ["booking:flight"],
      isVerified := false } ]

/-- Body of `discover_suppliers` from agent_directory.py, after the API
key dependency has succeeded: iterate the registry in order, keep the
suppliers that support `service_type`, skipping unverified ones when
`min_trust` is set; raise 404 when nothing was collected. -/
def discover_suppliers (registry : List SupplierInfo) (service_type : String)
    (min_trust : Bool) : Except HErr DiscoveryResponse :=
  let found_suppliers := registry.foldl
    (fun acc supplier =>
      if service_type ∈ supplier.supportedServices then
        if min_trust && !supplier.isVerified then acc
        else acc ++ [supplier]
      else acc) []
  if found_suppliers.isEmpty then
    .error ⟨404, "No suppliers found matching criteria for service: " ++ service_type⟩
  else
    .ok ⟨service_type, found_suppliers⟩

/-- The whole `/discover` endpoint: FastAPI resolves the `get_api_key`
dependency first; only on success does the endpoint body run. -/
def discover_endpoint (registry : List SupplierInfo) (header : Option String)
    (service_type : String) (min_trust : Bool) : Except HErr DiscoveryResponse :=
  match get_api_key header with
  | .error e => .error e
  | .ok _ => discover_suppliers registry service_type min_trust

end Directory

/-! ## agent_supplier.py (supplier A, v0.3) -/

namespace SupplierA

/-- IntentParams schema from agent_supplier.py. -/
structure IntentParams where
  from_city : String
  to_city : String
  date : String
deriving Repr, DecidableEq

/-- IntentConstraints schema from agent_supplier.py (`maxPrice : Optional[int]`). -/
structure IntentConstraints where
  maxPrice : Option Int
  currency : Option String
deriving Repr, DecidableEq

/-- Intent schema from agent_supplier.py. -/
structure Intent where
  params : IntentParams
  constraints : IntentConstraints
deriving Repr, DecidableEq

/-- IntentRequest schema from agent_supplier.py. -/
structure IntentRequest where
  transactionId : String
  requesterId : String
  serviceType : String
  intent : Intent
deriving Repr, DecidableEq

/-- OfferDetails schema from agent_supplier.py. -/
structure OfferDetails where
  flight : String
  departureTime : String
  arrivalTime : String
deriving Repr, DecidableEq

/-- Offer schema from agent_supplier.py. -/
structure Offer where
  offerId : String
  serviceType : String
  details : OfferDetails
  price : Int
  currency : String
  expiresAt : String
  commitEndpoint : String
deriving Repr, DecidableEq

/-- Rejection schema from agent_supplier.py. -/
structure Rejection where
  reasonCode : String
  message : String
deriving Repr, DecidableEq

/-- OfferResponse schema from agent_supplier.py. -/
structure OfferResponse where
  transactionId : String
  negotiationId : String
  offers : List Offer
  rejections : List Rejection
deriving Repr, DecidableEq

/-- CommitRequest schema from agent_supplier.py. -/
structure CommitRequest where
  transactionId : String
  offerId : String
deriving Repr, DecidableEq

/-- CommitResponse schema from agent_supplier.py. -/
structure CommitResponse where
  transactionId : String
  commitId : String
  status : String
  confirmationId : String
  message : String
deriving Repr, DecidableEq

def OUR_PRICE : Int := 480

/-- Endpoint `negotiate_transaction` of agent_supplier.py, with the
module-level dict `db_valid_offers` passed in and returned explicitly.
Rejects when a `maxPrice` constraint is present and below `OUR_PRICE`
(480); otherwise issues the static offer under the deterministic id
`"offer-af-" ++ transactionId` and stores it in the ledger. -/
def negotiate_transaction (db_valid_offers : List (String × Offer))
    (request : IntentRequest) : OfferResponse × List (String × Offer) :=
  let OUR_OFFER_ID := "offer-af-" ++ request.transactionId
  let static_offer : Offer :=
    { offerId := OUR_OFFER_ID,
      serviceType := "booking:flight",
      details := ⟨"AF006", "2025-11-15T18:30:00Z", "2025-11-15T21:00:00Z"⟩,
      price := OUR_PRICE,
      currency := "EUR",
      expiresAt := "2025-11-15T12:30:00Z",
      commitEndpoint := "/atp/v1/commit" }
  let offer_case : OfferResponse × List (String × Offer) :=
    (⟨request.transactionId, "uuid-supplier-v0.3-offer", [static_offer], []⟩,
     dinsert OUR_OFFER_ID static_offer db_valid_offers)
  match request.intent.constraints.maxPrice with
  | some client_max_price =>
    if client_max_price < OUR_PRICE then
      (⟨request.transactionId, "uuid-supplier-v0.3-reject", [],
        [⟨"PRICE_UNMET",
          "Offered price (" ++ toString OUR_PRICE ++
          ") exceeds client's maxPrice constraint (" ++ toString client_max_price ++ ")."⟩]⟩,
       db_valid_offers)
    else offer_case
  | none => offer_case

/-- Endpoint `commit_transaction` of agent_supplier.py: 404 when the
`offerId` is not in the ledger; otherwise pop the entry and return a
CONFIRMED response whose `confirmationId` is derived from the last
`-`-separated segment of the request's `transactionId`. -/
def commit_transaction (db_valid_offers : List (String × Offer))
    (request : CommitRequest) : Except HErr (CommitResponse × List (String × Offer)) :=
  if (dlookup request.offerId db_valid_offers).isNone then
    .error ⟨404, "Offer ID '" ++ request.offerId ++ "' not found or expired."⟩
  else
    let confirmation_code := "CONF-" ++ (request.transactionId.splitOn "-").getLastD ""
    .ok (⟨request.transactionId, "commit-" ++ request.offerId, "CONFIRMED",
          confirmation_code, "Your flight is confirmed."⟩,
         derase request.offerId db_valid_offers)

end SupplierA

/-! ## agent_supplier_2.py (supplier B, v0.5) -/

namespace SupplierB

def OUR_PRICE : ℚ := 475

def OUR_CURRENCY : String := "EUR"

def OUR_NAME : String := "AirDemo (Competitor)"

/-- IntentParams schema from agent_supplier_2.py. -/
structure IntentParams where
  origin : String
  destination : String
  date : String
deriving Repr, DecidableEq

/-- IntentConstraints schema from agent_supplier_2.py
(`maxPrice : Optional[float]`, embedded as an optional rational). -/
structure IntentConstraints where
  maxPrice : Option ℚ
  currency : Option String
deriving Repr, DecidableEq

/-- Intent schema from agent_supplier_2.py. -/
structure Intent where
  params : IntentParams
  constraints : IntentConstraints
deriving Repr, DecidableEq

/-- IntentRequest schema from agent_supplier_2.py. -/
structure IntentRequest where
  transactionId : String
  requesterId : String
  serviceType : String
  intent : Intent
deriving Repr, DecidableEq

/-- Offer schema from agent_supplier_2.py. -/
structure Offer where
  offerId : String
  price : ℚ
  currency : String
  commitEndpoint : String
deriving Repr, DecidableEq

/-- Rejection schema from agent_supplier_2.py. -/
structure Rejection where
  reasonCode : String
  message : String
deriving Repr, DecidableEq

/-- NegotiateResponse schema from agent_supplier_2.py. -/
structure NegotiateResponse where
  transactionId : String
  negotiationId : String
  offers : List Offer
  rejections : List Rejection
deriving Repr, DecidableEq

/-- CommitRequest schema from agent_supplier_2.py. -/
structure CommitRequest where
  transactionId : String
  offerId : String
deriving Repr, DecidableEq

/-- CommitResponse schema from agent_supplier_2.py (carries the
`offerId` back, unlike supplier A's `commitId`). -/
structure CommitResponse where
  transactionId : String
  offerId : String
  status : String
  confirmationId : String
  message : String
deriving Repr, DecidableEq

/-- Decimal rendering standing in for Python `str()` on the float
values interpolated into supplier B's messages. -/
def fmtFloat (q : ℚ) : String :=
  if q.den = 1 then toString q.num ++ ".0" else toString q

/-- Endpoint `negotiate` of agent_supplier_2.py.  The two `uuid.uuid4()`
calls (negotiation id, offer id) are passed in as `negUuid` and
`offerUuid`.  With a budget at or above `OUR_PRICE` (475), or no budget
at all, a fresh offer `"offer-B-" ++ offerUuid` is issued and stored;
with a lower budget a `BUDGET_TOO_LOW` rejection is returned and the
ledger is untouched. -/
def negotiate (db_valid_offers : List (String × Offer)) (request : IntentRequest)
    (negUuid offerUuid : String) : NegotiateResponse × List (String × Offer) :=
  let negotiation_id := "uuid-supplier-B-" ++ negUuid
  let offer_id := "offer-B-" ++ offerUuid
  let new_offer : Offer := ⟨offer_id, OUR_PRICE, OUR_CURRENCY, "/atp/v1/commit"⟩
  match request.intent.constraints.maxPrice with
  | some client_max_price =>
    if client_max_price ≥ OUR_PRICE then
      (⟨request.transactionId, negotiation_id, [new_offer], []⟩,
       dinsert offer_id new_offer db_valid_offers)
    else
      (⟨request.transactionId, negotiation_id, [],
        [⟨"BUDGET_TOO_LOW",
          "Max price " ++ fmtFloat client_max_price ++
          " is below our minimum of " ++ fmtFloat OUR_PRICE⟩]⟩,
       db_valid_offers)
  | none =>
    (⟨request.transactionId, negotiation_id, [new_offer], []⟩,
     dinsert offer_id new_offer db_valid_offers)

/-- Endpoint `commit` of agent_supplier_2.py: when the `offerId` is in
the ledger, pop it and confirm with a fresh `"conf-B-" ++ uuid4()`
confirmation id (passed in as `confUuid`); otherwise HTTP 404. -/
def commit (db_valid_offers : List (String × Offer)) (request : CommitRequest)
    (confUuid : String) : Except HErr (CommitResponse × List (String × Offer)) :=
  if (dlookup request.offerId db_valid_offers).isSome then
    let confirmation_id := "conf-B-" ++ confUuid
    .ok (⟨request.transactionId, request.offerId, "CONFIRMED", confirmation_id,
          "Booking confirmed via " ++ OUR_NAME ++ "."⟩,
         derase request.offerId db_valid_offers)
  else
    .error ⟨404, "Offer ID " ++ request.offerId ++ " not found or has expired."⟩

end SupplierB

/-! ## agent_client.py: canonical JSON serialization and task signing -/

namespace ClientAgent

/-- JSON values as `json.dumps` serializes them in `_sign_task`: task
objects are Python dicts (association lists in insertion order),
lists, strings, numbers, booleans and None.  Numeric leaves are
embedded as integers; Python renders each numeric value
deterministically from the value alone, which is all the claims
depend on. -/
inductive Json where
  | null : Json
  | bool (b : Bool) : Json
  | num (n : Int) : Json
  | str (s : String) : Json
  | arr (xs : List Json) : Json
  | obj (kvs : List (String × Json)) : Json
deriving Repr

/-- Lowercase hexadecimal digit, as Python's `\uXXXX` escapes use. -/
def hexDigit (n : Nat) : Char :=
  if n < 10 then Char.ofNat (48 + n) else Char.ofNat (87 + n)

/-- Four-digit lowercase hexadecimal rendering of a code unit. -/
def hex4 (n : Nat) : String :=
  String.mk [hexDigit (n / 4096 % 16), hexDigit (n / 256 % 16),
             hexDigit (n / 16 % 16), hexDigit (n % 16)]

/-- Escaping of one character inside a JSON string literal, following
`json.dumps` with its default `ensure_ascii=True`
(`py_encode_basestring_ascii`): two-character escapes for the quote,
backslash and control whitespace, `\uXXXX` for every other control or
non-ASCII character, as a surrogate pair above U+FFFF. -/
def escChar (c : Char) : String :=
  if c = '"' then "\\\""
  else if c = '\\' then "\\\\"
  else if c = '\n' then "\\n"
  else if c = '\r' then "\\r"
  else if c = '\t' then "\\t"
  else if c = '\x08' then "\\b"
  else if c = '\x0c' then "\\f"
  else if 32 ≤ c.toNat ∧ c.toNat < 127 then String.singleton c
  else if c.toNat < 65536 then "\\u" ++ hex4 c.toNat
  else
    "\\u" ++ hex4 (55296 + (c.toNat - 65536) / 1024) ++
    "\\u" ++ hex4 (56320 + (c.toNat - 65536) % 1024)

/-- JSON string literal rendering: quotes around the escaped characters. -/
def encodeString (s : String) : String :=
  "\"" ++ String.join (s.data.map escChar) ++ "\""

/-- Key comparison used by `json.dumps(sort_keys=True)`: Python's
`sorted` on dict items orders by the string keys (keys are unique in a
dict, so the values never break a tie). -/
def keyLe (a b : String × Json) : Bool := decide (a.1 ≤ b.1)

/-- Sort of the entries of one object by key, as `sort_keys=True` does
at every object node. -/
def sortEntries (kvs : List (String × Json)) : List (String × Json) :=
  kvs.mergeSort keyLe

/-- Recursive key-sorting pass: `json.dumps(sort_keys=True)` emits
every object's entries in sorted key order; sorting the whole tree
first and then rendering plainly is the same traversal. -/
def normalize : Json → Json
  | .null => .null
  | .bool b => .bool b
  | .num n => .num n
  | .str s => .str s
  | .arr xs => .arr (xs.attach.map (fun x => normalize x.1))
  | .obj kvs => .obj (sortEntries (kvs.attach.map (fun kv => (kv.1.1, normalize kv.1.2))))
termination_by j => sizeOf j
decreasing_by
  · have h := List.sizeOf_lt_of_mem x.2
    simp at h ⊢
    omega
  · obtain ⟨⟨k, v⟩, hkv⟩ := kv
    have h := List.sizeOf_lt_of_mem hkv
    simp at h ⊢
    omega

/-- Plain rendering with the compact separators `(',', ':')` of the
`json.dumps` call in `_sign_task`: no insignificant whitespace
anywhere. -/
def render : Json → String
  | .null => "null"
  | .bool b => if b then "true" else "false"
  | .num n => toString n
  | .str s => encodeString s
  | .arr xs => "[" ++ String.intercalate "," (xs.attach.map (fun x => render x.1)) ++ "]"
  | .obj kvs => "\x7b" ++ String.intercalate ","
      (kvs.attach.map (fun kv => encodeString kv.1.1 ++ ":" ++ render kv.1.2)) ++ "\x7d"
termination_by j => sizeOf j
decreasing_by
  · have h := List.sizeOf_lt_of_mem x.2
    simp at h ⊢
    omega
  · obtain ⟨⟨k, v⟩, hkv⟩ := kv
    have h := List.sizeOf_lt_of_mem hkv
    simp at h ⊢
    omega

/-- Canonical serialization step of `_sign_task`:
`json.dumps(task_object, sort_keys=True, separators=(',', ':')).encode('utf-8')`. -/
def dumpsCanonical (j : Json) : String := render (normalize j)

/-- Python truthiness of a JSON value, as `if not task_object` tests
it: None, False, zero, the empty string, the empty list and the empty
dict are falsy. -/
def isFalsy : Json → Bool
  | .null => true
  | .bool b => !b
  | .num n => n == 0
  | .str s => s == ""
  | .arr xs => xs.isEmpty
  | .obj kvs => kvs.isEmpty

/-- Signed wrapper `{"task": ..., "signature": ..., "algorithm":
"Ed25519"}` built by `_sign_task`. -/
structure SignedTaskW where
  task : Json
  signature : String
  algorithm : String
deriving Repr

/-- The `_sign_task` function of agent_client.py.  `ed25519_sign`
stands for `AGENT_PRIVATE_KEY.sign` and `b64encode` for
`base64.b64encode(...).decode('utf-8')`, each returning `none` when
the foreign call raises, in which case the surrounding try/except
returns `None`.  A falsy task object short-circuits to `None` before
any serialization or signing. -/
def sign_task (ed25519_sign : String → Option String)
    (b64encode : String → Option String) (task_object : Json) : Option SignedTaskW :=
  if isFalsy task_object then none
  else
    match ed25519_sign (dumpsCanonical task_object) with
    | none => none
    | some signature =>
      match b64encode signature with
      | none => none
      | some signature_b64 => some ⟨task_object, signature_b64, "Ed25519"⟩

/-- Equality of two JSON values as logical objects: leaves compare
structurally, arrays pointwise, and objects as finite maps — the
entries agree pairwise (same key, equal value) up to a permutation. -/
inductive JEqv : Json → Json → Prop where
  | null : JEqv .null .null
  | bool (b : Bool) : JEqv (.bool b) (.bool b)
  | num (n : Int) : JEqv (.num n) (.num n)
  | str (s : String) : JEqv (.str s) (.str s)
  | arr {xs ys : List Json} (hlen : xs.length = ys.length)
      (h : ∀ p ∈ xs.zip ys, JEqv p.1 p.2) : JEqv (.arr xs) (.arr ys)
  | obj {xs zs ys : List (String × Json)} (hlen : xs.length = zs.length)
      (hkeys : ∀ p ∈ xs.zip zs, p.1.1 = p.2.1)
      (hvals : ∀ p ∈ xs.zip zs, JEqv p.1.2 p.2.2)
      (hperm : zs.Perm ys) : JEqv (.obj xs) (.obj ys)

/-- Well-formedness of a JSON value arising from Python data: every
object node has pairwise-distinct keys, as a Python dict always does. -/
inductive WFJson : Json → Prop where
  | null : WFJson .null
  | bool (b : Bool) : WFJson (.bool b)
  | num (n : Int) : WFJson (.num n)
  | str (s : String) : WFJson (.str s)
  | arr {xs : List Json} (h : ∀ x ∈ xs, WFJson x) : WFJson (.arr xs)
  | obj {kvs : List (String × Json)} (hnd : (kvs.map Prod.fst).Nodup)
      (h : ∀ kv ∈ kvs, WFJson kv.2) : WFJson (.obj kvs)

end ClientAgent

/-! ## orchestrator.py -/

namespace Orchestrator

/-- Response JSON of the `/chat_turn` endpoint, together with the HTTP
status code Flask attaches. -/
structure ChatTurnResponse where
  response_text : Option String
  new_state : ClientAgent.Json
  signed_task : Option ClientAgent.SignedTaskW
  user_auth_token : Option String
  httpStatus : Nat

/-- Python `str.startswith` on the embedded strings: character-list
comparison, extensionally the same test `String.startsWith` performs
but kernel-computable. -/
def startswith (s pre : String) : Bool := pre.data.isPrefixOf s.data

/-- Access `signed_task['task']['task_name']` as `handle_chat_turn`
does; every signed task `core_processing_phase` builds carries a
string under `task_name`. -/
def task_name_of (t : ClientAgent.Json) : String :=
  match t with
  | .obj kvs =>
    match dlookup "task_name" kvs with
    | some (.str s) => s
    | _ => ""
  | _ => ""

/-- Branching of `handle_chat_turn` (orchestrator.py) after
`agent.run_agent_turn` returned `(agent_response, new_state,
signed_task)`; `authHeader` is `request.headers.get('Authorization')`
(absent or empty counts as missing, as `if not user_auth_token`
tests).  A signed `BOOK_` task without a user token yields a 401
response with no task; otherwise the signed task is passed through
unmodified, the user token riding in the sibling `user_auth_token`
field for `BOOK_` tasks and `none` for every other task. -/
def handle_chat_turn (agent_response : Option String) (new_state : ClientAgent.Json)
    (signed_task : Option ClientAgent.SignedTaskW) (authHeader : Option String) :
    ChatTurnResponse :=
  match signed_task with
  | some w =>
    if startswith (task_name_of w.task) "BOOK_" then
      match authHeader with
      | none =>
        ⟨some "This action (booking) requires user authentication. Please provide an 'Authorization' header.",
         new_state, none, none, 401⟩
      | some user_auth_token =>
        if user_auth_token = "" then
          ⟨some "This action (booking) requires user authentication. Please provide an 'Authorization' header.",
           new_state, none, none, 401⟩
        else
          ⟨none, new_state, some w, some user_auth_token, 200⟩
    else
      ⟨none, new_state, some w, none, 200⟩
  | none => ⟨agent_response, new_state, none, none, 200⟩

end Orchestrator

/-! ## Lemmas about the dict embedding -/

theorem dlookup_eq_none_of_not_mem_keys {α : Type} (k : String) (l : List (String × α))
    (h : k ∉ l.map Prod.fst) : dlookup k l = none := by
  induction l with
  | nil => rfl
  | cons kv rest ih =>
    obtain ⟨k₂, v⟩ := kv
    simp only [List.map_cons, List.mem_cons, not_or] at h
    simp only [dlookup, if_neg (Ne.symm h.1), ih h.2]

theorem dlookup_derase_self {α : Type} (k : String) (l : List (String × α))
    (h : NodupKeys l) : dlookup k (derase k l) = none := by
  induction l with
  | nil => rfl
  | cons kv rest ih =>
    obtain ⟨k₂, v⟩ := kv
    simp only [NodupKeys, List.map_cons, List.nodup_cons] at h
    by_cases hk : k₂ = k
    · subst hk
      simp only [derase, if_pos rfl]
      exact dlookup_eq_none_of_not_mem_keys k₂ rest h.1
    · simp only [derase, if_neg hk, dlookup, if_neg hk]
      exact ih h.2

theorem dlookup_dinsert_self {α : Type} (k : String) (v : α) (l : List (String × α)) :
    dlookup k (dinsert k v l) = some v := by
  induction l with
  | nil => simp [dinsert, dlookup]
  | cons kv rest ih =>
    obtain ⟨k₂, w⟩ := kv
    by_cases hk : k₂ = k
    · simp [dinsert, if_pos hk, dlookup]
    · simp [dinsert, if_neg hk, dlookup, ih]

theorem dinsert_dinsert_self {α : Type} (k : String) (v : α) (l : List (String × α)) :
    dinsert k v (dinsert k v l) = dinsert k v l := by
  induction l with
  | nil => simp [dinsert]
  | cons kv rest ih =>
    obtain ⟨k₂, w⟩ := kv
    by_cases hk : k₂ = k
    · simp [dinsert, if_pos hk]
    · simp [dinsert, if_neg hk, ih]

theorem length_dinsert_le {α : Type} (k : String) (v : α) (l : List (String × α)) :
    (dinsert k v l).length ≤ l.length + 1 := by
  induction l with
  | nil => simp [dinsert]
  | cons kv rest ih =>
    obtain ⟨k₂, w⟩ := kv
    by_cases hk : k₂ = k
    · simp [dinsert, if_pos hk]
    · simp only [dinsert, if_neg hk, List.length_cons]
      omega

theorem mem_keys_dinsert_self {α : Type} (k : String) (v : α) (l : List (String × α)) :
    k ∈ (dinsert k v l).map Prod.fst := by
  induction l with
  | nil => simp [dinsert]
  | cons kv rest ih =>
    obtain ⟨k₂, w⟩ := kv
    by_cases hk : k₂ = k
    · simp [dinsert, if_pos hk]
    · simp only [dinsert, if_neg hk, List.map_cons, List.mem_cons]
      exact Or.inr ih

theorem length_dinsert_of_mem_keys {α : Type} (k : String) (v : α) (l : List (String × α))
    (h : k ∈ l.map Prod.fst) : (dinsert k v l).length = l.length := by
  induction l with
  | nil => simp at h
  | cons kv rest ih =>
    obtain ⟨k₂, w⟩ := kv
    by_cases hk : k₂ = k
    · simp [dinsert, if_pos hk]
    · simp only [List.map_cons, List.mem_cons] at h
      rcases h with h | h
      · exact absurd h.symm hk
      · simp only [dinsert, if_neg hk, List.length_cons, ih h]

/-! ## Claim theorems -/

/-- C1: commit is exactly-once per offer.  For every `offerId` present
in a supplier's ledger, the first commit returns a CONFIRMED response
and removes the ledger entry, and any subsequent commit with the same
`offerId` fails with HTTP 404.  Proved for both supplier
implementations. -/
theorem commit_exactly_once_per_offer :
    (∀ (db : List (String × SupplierA.Offer)) (tid oid tid₂ : String),
      NodupKeys db → (dlookup oid db).isSome = true →
      ∃ resp db₂,
        SupplierA.commit_transaction db ⟨tid, oid⟩ = .ok (resp, db₂) ∧
        resp.status = "CONFIRMED" ∧
        dlookup oid db₂ = none ∧
        SupplierA.commit_transaction db₂ ⟨tid₂, oid⟩ =
          .error ⟨404, "Offer ID '" ++ oid ++ "' not found or expired."⟩) ∧
    (∀ (db : List (String × SupplierB.Offer)) (tid oid tid₂ u u₂ : String),
      NodupKeys db → (dlookup oid db).isSome = true →
      ∃ resp db₂,
        SupplierB.commit db ⟨tid, oid⟩ u = .ok (resp, db₂) ∧
        resp.status = "CONFIRMED" ∧
        dlookup oid db₂ = none ∧
        SupplierB.commit db₂ ⟨tid₂, oid⟩ u₂ =
          .error ⟨404, "Offer ID " ++ oid ++ " not found or has expired."⟩) := by
  constructor
  · intro db tid oid tid₂ hnd hs
    obtain ⟨v, hv⟩ := Option.isSome_iff_exists.mp hs
    have hnone : dlookup oid (derase oid db) = none := dlookup_derase_self oid db hnd
    refine ⟨⟨tid, "commit-" ++ oid, "CONFIRMED",
             "CONF-" ++ (tid.splitOn "-").getLastD "", "Your flight is confirmed."⟩,
            derase oid db, ?_, rfl, hnone, ?_⟩
    · simp [SupplierA.commit_transaction, hv]
    · simp [SupplierA.commit_transaction, hnone]
  · intro db tid oid tid₂ u u₂ hnd hs
    have hnone : dlookup oid (derase oid db) = none := dlookup_derase_self oid db hnd
    refine ⟨⟨tid, oid, "CONFIRMED", "conf-B-" ++ u,
             "Booking confirmed via " ++ SupplierB.OUR_NAME ++ "."⟩,
            derase oid db, ?_, rfl, hnone, ?_⟩
    · simp [SupplierB.commit, hs]
    · simp [SupplierB.commit, hnone]

/-- Witness for C1: a concrete offer in each supplier's ledger is
committed once with CONFIRMED and a second commit on the emptied
ledger yields the 404 error. -/
theorem commit_exactly_once_per_offer_witness :
    (∃ resp db₂,
      SupplierA.commit_transaction
          [("offer-af-tx-1",
            (⟨"offer-af-tx-1", "booking:flight",
              ⟨"AF006", "2025-11-15T18:30:00Z", "2025-11-15T21:00:00Z"⟩,
              480, "EUR", "2025-11-15T12:30:00Z", "/atp/v1/commit"⟩ : SupplierA.Offer))]
          ⟨"tx-1", "offer-af-tx-1"⟩ = .ok (resp, db₂) ∧
      resp.status = "CONFIRMED" ∧
      dlookup "offer-af-tx-1" db₂ = none ∧
      SupplierA.commit_transaction db₂ ⟨"tx-1", "offer-af-tx-1"⟩ =
        .error ⟨404, "Offer ID '" ++ "offer-af-tx-1" ++ "' not found or expired."⟩) ∧
    (∃ resp db₂,
      SupplierB.commit
          [("offer-B-u1", (⟨"offer-B-u1", 475, "EUR", "/atp/v1/commit"⟩ : SupplierB.Offer))]
          ⟨"tx-2", "offer-B-u1"⟩ "u7" = .ok (resp, db₂) ∧
      resp.status = "CONFIRMED" ∧
      dlookup "offer-B-u1" db₂ = none ∧
      SupplierB.commit db₂ ⟨"tx-2", "offer-B-u1"⟩ "u8" =
        .error ⟨404, "Offer ID " ++ "offer-B-u1" ++ " not found or has expired."⟩) :=
  ⟨commit_exactly_once_per_offer.1 _ "tx-1" "offer-af-tx-1" "tx-1"
     (by unfold NodupKeys; decide) (by decide),
   commit_exactly_once_per_offer.2 _ "tx-2" "offer-B-u1" "tx-2" "u7" "u8"
     (by unfold NodupKeys; decide) (by decide)⟩

/-- C2: negotiate implements the deterministic pricing policy.  When
the budget constraint is absent or at least the supplier's price, the
response holds exactly one offer at the supplier's quoted price, no
rejection, and the offer is stored in the ledger; when the budget is
below the price, the response holds exactly one rejection, no offer,
and the ledger is unchanged.  Proved for both supplier
implementations. -/
theorem negotiate_pricing_policy :
    (∀ (db : List (String × SupplierA.Offer)) (req : SupplierA.IntentRequest),
      ((req.intent.constraints.maxPrice = none ∨
        ∃ m, req.intent.constraints.maxPrice = some m ∧ SupplierA.OUR_PRICE ≤ m) →
        (SupplierA.negotiate_transaction db req).1.offers.length = 1 ∧
        (SupplierA.negotiate_transaction db req).1.rejections = [] ∧
        ∀ o ∈ (SupplierA.negotiate_transaction db req).1.offers,
          o.price = SupplierA.OUR_PRICE ∧
          dlookup o.offerId (SupplierA.negotiate_transaction db req).2 = some o) ∧
      (∀ m, req.intent.constraints.maxPrice = some m → m < SupplierA.OUR_PRICE →
        (SupplierA.negotiate_transaction db req).1.offers = [] ∧
        (SupplierA.negotiate_transaction db req).1.rejections.length = 1 ∧
        (SupplierA.negotiate_transaction db req).2 = db)) ∧
    (∀ (db : List (String × SupplierB.Offer)) (req : SupplierB.IntentRequest)
        (negUuid offerUuid : String),
      ((req.intent.constraints.maxPrice = none ∨
        ∃ m, req.intent.constraints.maxPrice = some m ∧ SupplierB.OUR_PRICE ≤ m) →
        (SupplierB.negotiate db req negUuid offerUuid).1.offers.length = 1 ∧
        (SupplierB.negotiate db req negUuid offerUuid).1.rejections = [] ∧
        ∀ o ∈ (SupplierB.negotiate db req negUuid offerUuid).1.offers,
          o.price = SupplierB.OUR_PRICE ∧
          dlookup o.offerId (SupplierB.negotiate db req negUuid offerUuid).2 = some o) ∧
      (∀ m, req.intent.constraints.maxPrice = some m → m < SupplierB.OUR_PRICE →
        (SupplierB.negotiate db req negUuid offerUuid).1.offers = [] ∧
        (SupplierB.negotiate db req negUuid offerUuid).1.rejections.length = 1 ∧
        (SupplierB.negotiate db req negUuid offerUuid).2 = db)) := by
  constructor
  · intro db req
    constructor
    · rintro (hnone | ⟨m, hm, hle⟩)
      · simp only [SupplierA.negotiate_transaction, hnone]
        refine ⟨by simp, by simp, ?_⟩
        intro o ho
        simp only [List.mem_singleton] at ho
        subst ho
        exact ⟨rfl, dlookup_dinsert_self _ _ _⟩
      · simp only [SupplierA.negotiate_transaction, hm, if_neg (not_lt.mpr hle)]
        refine ⟨by simp, by simp, ?_⟩
        intro o ho
        simp only [List.mem_singleton] at ho
        subst ho
        exact ⟨rfl, dlookup_dinsert_self _ _ _⟩
    · intro m hm hlt
      simp only [SupplierA.negotiate_transaction, hm, if_pos hlt]
      exact ⟨by simp, by simp, by simp⟩
  · intro db req negUuid offerUuid
    constructor
    · rintro (hnone | ⟨m, hm, hle⟩)
      · simp only [SupplierB.negotiate, hnone]
        refine ⟨by simp, by simp, ?_⟩
        intro o ho
        simp only [List.mem_singleton] at ho
        subst ho
        exact ⟨rfl, dlookup_dinsert_self _ _ _⟩
      · simp only [SupplierB.negotiate, hm, if_pos (show m ≥ SupplierB.OUR_PRICE from hle)]
        refine ⟨by simp, by simp, ?_⟩
        intro o ho
        simp only [List.mem_singleton] at ho
        subst ho
        exact ⟨rfl, dlookup_dinsert_self _ _ _⟩
    · intro m hm hlt
      simp only [SupplierB.negotiate, hm, if_neg (not_le.mpr hlt)]
      exact ⟨by simp, by simp, by simp⟩

/-- Witness for C2: supplier A offers against a 500 budget, supplier B
rejects a 400 budget. -/
theorem negotiate_pricing_policy_witness :
    ((SupplierA.negotiate_transaction []
        (⟨"tx-1", "client-1", "booking:flight",
          ⟨⟨"CDG", "JFK", "2025-11-15"⟩, ⟨some 500, some "EUR"⟩⟩⟩ : SupplierA.IntentRequest)).1.offers.length = 1 ∧
     (SupplierA.negotiate_transaction []
        (⟨"tx-1", "client-1", "booking:flight",
          ⟨⟨"CDG", "JFK", "2025-11-15"⟩, ⟨some 500, some "EUR"⟩⟩⟩ : SupplierA.IntentRequest)).1.rejections = []) ∧
    ((SupplierB.negotiate []
        (⟨"tx-2", "client-1", "booking:flight",
          ⟨⟨"CDG", "JFK", "2025-11-15"⟩, ⟨some 400, some "EUR"⟩⟩⟩ : SupplierB.IntentRequest)
        "n1" "o1").1.offers = [] ∧
     (SupplierB.negotiate []
        (⟨"tx-2", "client-1", "booking:flight",
          ⟨⟨"CDG", "JFK", "2025-11-15"⟩, ⟨some 400, some "EUR"⟩⟩⟩ : SupplierB.IntentRequest)
        "n1" "o1").1.rejections.length = 1) :=
  ⟨⟨((negotiate_pricing_policy.1 [] _).1 (Or.inr ⟨500, rfl, by norm_num [SupplierA.OUR_PRICE]⟩)).1,
    ((negotiate_pricing_policy.1 [] _).1 (Or.inr ⟨500, rfl, by norm_num [SupplierA.OUR_PRICE]⟩)).2.1⟩,
   ⟨((negotiate_pricing_policy.2 [] _ "n1" "o1").2 400 rfl
       (by norm_num [SupplierB.OUR_PRICE])).1,
    ((negotiate_pricing_policy.2 [] _ "n1" "o1").2 400 rfl
       (by norm_num [SupplierB.OUR_PRICE])).2.1⟩⟩

/-- C9: in supplier A the `offerId` is the pure function
`"offer-af-" ++ transactionId` of the request, every negotiate call
grows the ledger by at most one entry, a repeated call with the same
`transactionId` keeps the ledger within one entry of the original, and
once an offer was issued a second call with the same `transactionId`
leaves the ledger exactly as it was (the entry is overwritten, not
added). -/
theorem negotiate_offerId_pure_and_ledger_stable :
    ∀ (db : List (String × SupplierA.Offer)) (req req₂ : SupplierA.IntentRequest),
      (∀ o ∈ (SupplierA.negotiate_transaction db req).1.offers,
        o.offerId = "offer-af-" ++ req.transactionId) ∧
      (SupplierA.negotiate_transaction db req).2.length ≤ db.length + 1 ∧
      (req₂.transactionId = req.transactionId →
        (SupplierA.negotiate_transaction
          (SupplierA.negotiate_transaction db req).2 req₂).2.length ≤ db.length + 1) ∧
      (req₂.transactionId = req.transactionId →
        (SupplierA.negotiate_transaction db req).1.offers ≠ [] →
        (SupplierA.negotiate_transaction
          (SupplierA.negotiate_transaction db req).2 req₂).2 =
          (SupplierA.negotiate_transaction db req).2) := by
  have hlen : ∀ (db : List (String × SupplierA.Offer)) (req : SupplierA.IntentRequest),
      (SupplierA.negotiate_transaction db req).2.length ≤ db.length + 1 := by
    intro db req
    rcases hm : req.intent.constraints.maxPrice with _ | m
    · simp only [SupplierA.negotiate_transaction, hm]
      exact length_dinsert_le _ _ _
    · by_cases hlt : m < SupplierA.OUR_PRICE
      · simp only [SupplierA.negotiate_transaction, hm, if_pos hlt]
        omega
      · simp only [SupplierA.negotiate_transaction, hm, if_neg hlt]
        exact length_dinsert_le _ _ _
  have hcases : ∀ (db : List (String × SupplierA.Offer)) (req : SupplierA.IntentRequest),
      ((SupplierA.negotiate_transaction db req).2 = db ∧
        (SupplierA.negotiate_transaction db req).1.offers = []) ∨
      ((SupplierA.negotiate_transaction db req).2 =
        dinsert ("offer-af-" ++ req.transactionId)
          ⟨"offer-af-" ++ req.transactionId, "booking:flight",
           ⟨"AF006", "2025-11-15T18:30:00Z", "2025-11-15T21:00:00Z"⟩,
           SupplierA.OUR_PRICE, "EUR", "2025-11-15T12:30:00Z", "/atp/v1/commit"⟩ db ∧
        (SupplierA.negotiate_transaction db req).1.offers =
          [⟨"offer-af-" ++ req.transactionId, "booking:flight",
            ⟨"AF006", "2025-11-15T18:30:00Z", "2025-11-15T21:00:00Z"⟩,
            SupplierA.OUR_PRICE, "EUR", "2025-11-15T12:30:00Z", "/atp/v1/commit"⟩]) := by
    intro db req
    rcases hm : req.intent.constraints.maxPrice with _ | m
    · right
      simp only [SupplierA.negotiate_transaction, hm]
      exact ⟨by trivial, by trivial⟩
    · by_cases hlt : m < SupplierA.OUR_PRICE
      · left
        simp only [SupplierA.negotiate_transaction, hm, if_pos hlt]
        exact ⟨by trivial, by trivial⟩
      · right
        simp only [SupplierA.negotiate_transaction, hm, if_neg hlt]
        exact ⟨by trivial, by trivial⟩
  intro db req req₂
  refine ⟨?_, hlen db req, ?_, ?_⟩
  · intro o ho
    rcases hcases db req with ⟨_, hoff⟩ | ⟨_, hoff⟩
    · rw [hoff] at ho
      simp at ho
    · rw [hoff] at ho
      simp only [List.mem_singleton] at ho
      subst ho
      rfl
  · intro htid
    rcases hcases db req with ⟨hdb, _⟩ | ⟨hdb, _⟩
    · rw [hdb]
      exact hlen db req₂
    · rcases hcases (SupplierA.negotiate_transaction db req).2 req₂ with ⟨hdb₂, _⟩ | ⟨hdb₂, _⟩
      · rw [hdb₂]
        exact hlen db req
      · rw [hdb₂, hdb, htid]
        rw [length_dinsert_of_mem_keys _ _ _ (mem_keys_dinsert_self _ _ _)]
        rw [← hdb]
        exact hlen db req
  · intro htid hne
    rcases hcases db req with ⟨_, hoff⟩ | ⟨hdb, _⟩
    · exact absurd hoff hne
    · rcases hcases (SupplierA.negotiate_transaction db req).2 req₂ with ⟨hdb₂, _⟩ | ⟨hdb₂, _⟩
      · rw [hdb₂]
      · rw [hdb₂, hdb, htid]
        exact dinsert_dinsert_self _ _ _

/-- Witness for C9: a concrete unconstrained negotiate call issues the
offer `offer-af-tx-9`, and repeating it leaves the ledger unchanged
and within one entry of the empty original. -/
theorem negotiate_offerId_pure_and_ledger_stable_witness :
    (∀ o ∈ (SupplierA.negotiate_transaction []
        (⟨"tx-9", "client-1", "booking:flight",
          ⟨⟨"CDG", "JFK", "2025-11-15"⟩, ⟨none, none⟩⟩⟩ : SupplierA.IntentRequest)).1.offers,
      o.offerId = "offer-af-" ++ "tx-9") ∧
    (SupplierA.negotiate_transaction
      (SupplierA.negotiate_transaction []
        (⟨"tx-9", "client-1", "booking:flight",
          ⟨⟨"CDG", "JFK", "2025-11-15"⟩, ⟨none, none⟩⟩⟩ : SupplierA.IntentRequest)).2
      (⟨"tx-9", "client-1", "booking:flight",
        ⟨⟨"CDG", "JFK", "2025-11-15"⟩, ⟨none, none⟩⟩⟩ : SupplierA.IntentRequest)).2 =
    (SupplierA.negotiate_transaction []
      (⟨"tx-9", "client-1", "booking:flight",
        ⟨⟨"CDG", "JFK", "2025-11-15"⟩, ⟨none, none⟩⟩⟩ : SupplierA.IntentRequest)).2 :=
  ⟨(negotiate_offerId_pure_and_ledger_stable []
      (⟨"tx-9", "client-1", "booking:flight",
        ⟨⟨"CDG", "JFK", "2025-11-15"⟩, ⟨none, none⟩⟩⟩ : SupplierA.IntentRequest)
      (⟨"tx-9", "client-1", "booking:flight",
        ⟨⟨"CDG", "JFK", "2025-11-15"⟩, ⟨none, none⟩⟩⟩ : SupplierA.IntentRequest)).1,
   (negotiate_offerId_pure_and_ledger_stable []
      (⟨"tx-9", "client-1", "booking:flight",
        ⟨⟨"CDG", "JFK", "2025-11-15"⟩, ⟨none, none⟩⟩⟩ : SupplierA.IntentRequest)
      (⟨"tx-9", "client-1", "booking:flight",
        ⟨⟨"CDG", "JFK", "2025-11-15"⟩, ⟨none, none⟩⟩⟩ : SupplierA.IntentRequest)).2.2.2
     rfl (by decide)⟩

/-- C6 counterexample: in supplier B two successful commits carrying
the same `transactionId` (on different offers, with the distinct fresh
uuids the code draws) produce different `confirmationId`s, so the
confirmation id is not derived from the transaction id. -/
theorem confirmationId_not_deterministic_in_B :
    (SupplierB.commit [("o1", (⟨"o1", 475, "EUR", "/atp/v1/commit"⟩ : SupplierB.Offer))]
        ⟨"tx-1", "o1"⟩ "u1").toOption.map (fun p => p.1.confirmationId) =
      some ("conf-B-" ++ "u1") ∧
    (SupplierB.commit [("o2", (⟨"o2", 475, "EUR", "/atp/v1/commit"⟩ : SupplierB.Offer))]
        ⟨"tx-1", "o2"⟩ "u2").toOption.map (fun p => p.1.confirmationId) =
      some ("conf-B-" ++ "u2") ∧
    ("conf-B-" ++ "u1" : String) ≠ "conf-B-" ++ "u2" := by
  refine ⟨rfl, rfl, ?_⟩
  decide

/-- C6 amended: on every successful commit supplier A's
`confirmationId` is deterministically derived from the request's
`transactionId` (same transaction id, same confirmation id, even on
different offers and ledgers), while supplier B's `confirmationId` is
`"conf-B-"` followed by a fresh uuid, independent of the
`transactionId`. -/
theorem confirmationId_derivation :
    (∀ (db db₂ : List (String × SupplierA.Offer)) (tid oid oid₂ : String)
        (r r₂ : SupplierA.CommitResponse) (s s₂ : List (String × SupplierA.Offer)),
      SupplierA.commit_transaction db ⟨tid, oid⟩ = .ok (r, s) →
      SupplierA.commit_transaction db₂ ⟨tid, oid₂⟩ = .ok (r₂, s₂) →
      r.confirmationId = r₂.confirmationId) ∧
    (∀ (db : List (String × SupplierB.Offer)) (tid oid u : String)
        (r : SupplierB.CommitResponse) (s : List (String × SupplierB.Offer)),
      SupplierB.commit db ⟨tid, oid⟩ u = .ok (r, s) →
      r.confirmationId = "conf-B-" ++ u) := by
  constructor
  · intro db db₂ tid oid oid₂ r r₂ s s₂ h1 h2
    unfold SupplierA.commit_transaction at h1 h2
    split at h1
    · exact absurd h1 (by simp)
    · split at h2
      · exact absurd h2 (by simp)
      · simp only [Except.ok.injEq, Prod.mk.injEq] at h1 h2
        rw [← h1.1, ← h2.1]
  · intro db tid oid u r s h
    unfold SupplierB.commit at h
    split at h
    · simp only [Except.ok.injEq, Prod.mk.injEq] at h
      rw [← h.1]
    · exact absurd h (by simp)

/-- Witness for C6 amended: two concrete supplier A commits with
transaction id `tx-a-7` on different offers both confirm with the same
code, and a concrete supplier B commit confirms with its uuid. -/
theorem confirmationId_derivation_witness :
    (⟨"tx-a-7", "commit-" ++ "o1", "CONFIRMED",
      "CONF-" ++ ("tx-a-7".splitOn "-").getLastD "",
      "Your flight is confirmed."⟩ : SupplierA.CommitResponse).confirmationId =
    (⟨"tx-a-7", "commit-" ++ "o2", "CONFIRMED",
      "CONF-" ++ ("tx-a-7".splitOn "-").getLastD "",
      "Your flight is confirmed."⟩ : SupplierA.CommitResponse).confirmationId ∧
    (⟨"tx-b-1", "o3", "CONFIRMED", "conf-B-" ++ "u9",
      "Booking confirmed via " ++ SupplierB.OUR_NAME ++ "."⟩ :
        SupplierB.CommitResponse).confirmationId = "conf-B-" ++ "u9" :=
  ⟨confirmationId_derivation.1
     [("o1", ⟨"o1", "booking:flight",
        ⟨"AF006", "2025-11-15T18:30:00Z", "2025-11-15T21:00:00Z"⟩,
        480, "EUR", "2025-11-15T12:30:00Z", "/atp/v1/commit"⟩)]
     [("o2", ⟨"o2", "booking:flight",
        ⟨"AF006", "2025-11-15T18:30:00Z", "2025-11-15T21:00:00Z"⟩,
        480, "EUR", "2025-11-15T12:30:00Z", "/atp/v1/commit"⟩)]
     "tx-a-7" "o1" "o2" _ _ _ _ rfl rfl,
   confirmationId_derivation.2
     [("o3", ⟨"o3", 475, "EUR", "/atp/v1/commit"⟩)]
     "tx-b-1" "o3" "u9" _ _ rfl⟩

/-- Accumulator characterization of the discovery loop of
`discover_suppliers`: the fold collects, in registry order, exactly the
suppliers supporting the service type that pass the trust filter. -/
theorem discover_loop_eq_filter (st : String) (rv : Bool)
    (l acc : List Directory.SupplierInfo) :
    l.foldl (fun acc supplier =>
      if st ∈ supplier.supportedServices then
        if rv && !supplier.isVerified then acc
        else acc ++ [supplier]
      else acc) acc =
    acc ++ l.filter (fun s => decide (st ∈ s.supportedServices) && (!rv || s.isVerified)) := by
  induction l generalizing acc with
  | nil => simp
  | cons s rest ih =>
    simp only [List.foldl_cons, List.filter_cons]
    by_cases h1 : st ∈ s.supportedServices
    · cases rv <;> cases hv : s.isVerified <;>
        simp_all [List.append_assoc]
    · simp_all

/-- C3: discover returns exactly the registered suppliers that support
the requested service type and, when `requireVerified` is set, are
verified, in registry insertion order; when no supplier matches it
fails with HTTP 404 instead of returning an empty list. -/
theorem discover_returns_matching_suppliers :
    ∀ (registry : List Directory.SupplierInfo) (st : String) (rv : Bool),
      Directory.discover_suppliers registry st rv =
        if registry.filter
            (fun s => decide (st ∈ s.supportedServices) && (!rv || s.isVerified)) = [] then
          .error ⟨404, "No suppliers found matching criteria for service: " ++ st⟩
        else
          .ok ⟨st, registry.filter
            (fun s => decide (st ∈ s.supportedServices) && (!rv || s.isVerified))⟩ := by
  intro registry st rv
  simp only [Directory.discover_suppliers]
  rw [discover_loop_eq_filter]
  simp only [List.nil_append]
  by_cases h : registry.filter
      (fun s => decide (st ∈ s.supportedServices) && (!rv || s.isVerified)) = []
  · simp [h]
  · simp [h, List.isEmpty_iff]

/-- C7 counterexample: a discover call with the credential header
absent fails with HTTP 403 (FastAPI's `APIKeyHeader` with
`auto_error=True` raises 403 "Not authenticated" for a missing
header), not 401 as the claim states. -/
theorem discover_missing_credential_is_403 :
    Directory.discover_endpoint Directory.REGISTERED_SUPPLIERS none "booking:flight" true =
      .error ⟨403, "Not authenticated"⟩ ∧ (403 : Nat) ≠ 401 :=
  ⟨rfl, by decide⟩

/-- C7 amended: the credential check runs before any registry lookup
(the outcome on a missing or wrong credential does not depend on the
registry), a missing credential and a mismatched credential both fail
with HTTP 403, and 404 arises only after authentication succeeded and
no supplier matched. -/
theorem discover_auth_gate :
    (∀ (reg reg₂ : List Directory.SupplierInfo) (st : String) (rv : Bool),
      Directory.discover_endpoint reg none st rv = .error ⟨403, "Not authenticated"⟩ ∧
      Directory.discover_endpoint reg none st rv =
        Directory.discover_endpoint reg₂ none st rv) ∧
    (∀ (reg reg₂ : List Directory.SupplierInfo) (st : String) (rv : Bool) (k : String),
      k ≠ Directory.DIRECTORY_API_KEY →
      (∃ e, Directory.discover_endpoint reg (some k) st rv = .error e ∧ e.status = 403) ∧
      Directory.discover_endpoint reg (some k) st rv =
        Directory.discover_endpoint reg₂ (some k) st rv) ∧
    (∀ (reg : List Directory.SupplierInfo) (st : String) (rv : Bool),
      Directory.discover_endpoint reg (some Directory.DIRECTORY_API_KEY) st rv =
        Directory.discover_suppliers reg st rv) ∧
    (∀ (reg : List Directory.SupplierInfo) (st : String) (rv : Bool) (e : HErr),
      Directory.discover_suppliers reg st rv = .error e → e.status = 404) := by
  refine ⟨?_, ?_, ?_, ?_⟩
  · intro reg reg₂ st rv
    exact ⟨rfl, rfl⟩
  · intro reg reg₂ st rv k hk
    by_cases hke : k = ""
    · subst hke
      exact ⟨⟨⟨403, "Not authenticated"⟩, rfl, rfl⟩, rfl⟩
    · refine ⟨⟨⟨403, "Invalid or missing API Key"⟩, ?_, rfl⟩, ?_⟩
      · simp [Directory.discover_endpoint, Directory.get_api_key,
              Directory.api_key_header, hke, hk]
      · simp [Directory.discover_endpoint, Directory.get_api_key,
              Directory.api_key_header, hke, hk]
  · intro reg st rv
    rfl
  · intro reg st rv e h
    simp only [Directory.discover_suppliers] at h
    split at h
    · simp only [Except.error.injEq] at h
      rw [← h]
    · exact absurd h (by simp)

/-- Witness for C7 amended: a concrete wrong key is rejected with 403
independently of the registry, and the concrete no-match 404 error has
status 404. -/
theorem discover_auth_gate_witness :
    (∃ e, Directory.discover_endpoint Directory.REGISTERED_SUPPLIERS (some "wrong-key")
        "booking:flight" true = .error e ∧ e.status = 403) ∧
    Directory.discover_endpoint Directory.REGISTERED_SUPPLIERS (some "wrong-key")
        "booking:flight" true =
      Directory.discover_endpoint [] (some "wrong-key") "booking:flight" true ∧
    (⟨404, "No suppliers found matching criteria for service: " ++ "weather:forecast"⟩ :
      HErr).status = 404 :=
  ⟨(discover_auth_gate.2.1 Directory.REGISTERED_SUPPLIERS [] "booking:flight" true
      "wrong-key" (by decide)).1,
   (discover_auth_gate.2.1 Directory.REGISTERED_SUPPLIERS [] "booking:flight" true
      "wrong-key" (by decide)).2,
   discover_auth_gate.2.2.2 [] "weather:forecast" true _ rfl⟩

/-! ## Lemmas about canonical serialization -/

theorem normalize_arr (xs : List ClientAgent.Json) :
    ClientAgent.normalize (.arr xs) = .arr (xs.map ClientAgent.normalize) := by
  rw [ClientAgent.normalize]
  rw [List.attach_map_val]

theorem normalize_obj (kvs : List (String × ClientAgent.Json)) :
    ClientAgent.normalize (.obj kvs) =
      .obj (ClientAgent.sortEntries
        (kvs.map (fun kv => (kv.1, ClientAgent.normalize kv.2)))) := by
  rw [ClientAgent.normalize]
  rw [List.attach_map_val (f := fun kv : String × ClientAgent.Json =>
    (kv.1, ClientAgent.normalize kv.2))]

theorem map_eq_map_of_zip {α β : Type} (f g : α → β) :
    ∀ (xs zs : List α), xs.length = zs.length →
      (∀ p ∈ xs.zip zs, f p.1 = g p.2) → xs.map f = zs.map g := by
  intro xs
  induction xs with
  | nil =>
    intro zs hlen _
    cases zs with
    | nil => rfl
    | cons z zs => simp at hlen
  | cons x xs ih =>
    intro zs hlen h
    cases zs with
    | nil => simp at hlen
    | cons z zs =>
      simp only [List.map_cons]
      have h1 : f x = g z := h (x, z) (by simp [List.zip_cons_cons])
      have h2 := ih zs (by simpa using hlen)
        (fun p hp => h p (by simp only [List.zip_cons_cons, List.mem_cons]; exact Or.inr hp))
      rw [h1, h2]

theorem keyLe_trans (a b c : String × ClientAgent.Json)
    (h1 : ClientAgent.keyLe a b = true) (h2 : ClientAgent.keyLe b c = true) :
    ClientAgent.keyLe a c = true := by
  simp only [ClientAgent.keyLe, decide_eq_true_eq] at h1 h2 ⊢
  exact le_trans h1 h2

theorem keyLe_total (a b : String × ClientAgent.Json) :
    (ClientAgent.keyLe a b || ClientAgent.keyLe b a) = true := by
  simp only [ClientAgent.keyLe, Bool.or_eq_true, decide_eq_true_eq]
  exact le_total a.1 b.1

theorem pairwise_keyLt_of_sorted_nodup {l : List (String × ClientAgent.Json)}
    (hs : l.Pairwise (fun a b => ClientAgent.keyLe a b = true))
    (hnd : (l.map Prod.fst).Nodup) :
    l.Pairwise (fun a b => a.1 < b.1) := by
  have hne : l.Pairwise (fun a b : String × ClientAgent.Json => a.1 ≠ b.1) :=
    List.pairwise_map.mp hnd
  refine (hs.and hne).imp ?_
  intro a b hab
  exact lt_of_le_of_ne (by simpa [ClientAgent.keyLe] using hab.1) hab.2

theorem sortEntries_eq_of_perm {l₁ l₂ : List (String × ClientAgent.Json)}
    (hp : l₁.Perm l₂) (hnd : (l₁.map Prod.fst).Nodup) :
    ClientAgent.sortEntries l₁ = ClientAgent.sortEntries l₂ := by
  haveI : IsAntisymm (String × ClientAgent.Json) (fun a b => a.1 < b.1) :=
    ⟨fun a b h1 h2 => absurd h2 (lt_asymm h1)⟩
  have hps₁ : (ClientAgent.sortEntries l₁).Perm l₁ := List.mergeSort_perm l₁ ClientAgent.keyLe
  have hps₂ : (ClientAgent.sortEntries l₂).Perm l₂ := List.mergeSort_perm l₂ ClientAgent.keyLe
  have hperm : (ClientAgent.sortEntries l₁).Perm (ClientAgent.sortEntries l₂) :=
    (hps₁.trans hp).trans hps₂.symm
  have hnd₁ : ((ClientAgent.sortEntries l₁).map Prod.fst).Nodup :=
    ((hps₁.map Prod.fst).nodup_iff).mpr hnd
  have hnd₂ : ((ClientAgent.sortEntries l₂).map Prod.fst).Nodup :=
    ((hps₂.map Prod.fst).nodup_iff).mpr (((hp.map Prod.fst).nodup_iff).mp hnd)
  have hs₁ : (ClientAgent.sortEntries l₁).Pairwise (fun a b => ClientAgent.keyLe a b = true) :=
    List.sorted_mergeSort keyLe_trans keyLe_total l₁
  have hs₂ : (ClientAgent.sortEntries l₂).Pairwise (fun a b => ClientAgent.keyLe a b = true) :=
    List.sorted_mergeSort keyLe_trans keyLe_total l₂
  exact List.eq_of_perm_of_sorted hperm
    (pairwise_keyLt_of_sorted_nodup hs₁ hnd₁)
    (pairwise_keyLt_of_sorted_nodup hs₂ hnd₂)

theorem normalize_eq_of_jeqv {a b : ClientAgent.Json} (h : ClientAgent.JEqv a b) :
    ClientAgent.WFJson a → ClientAgent.normalize a = ClientAgent.normalize b := by
  induction h with
  | null => intro _; rfl
  | bool b => intro _; rfl
  | num n => intro _; rfl
  | str s => intro _; rfl
  | @arr xs ys hlen hz ih =>
    intro wf
    cases wf with
    | arr hwf =>
      rw [normalize_arr, normalize_arr]
      exact congrArg ClientAgent.Json.arr
        (map_eq_map_of_zip _ _ _ _ hlen
          (fun p hp => ih p hp (hwf p.1 (List.of_mem_zip hp).1)))
  | @obj xs zs ys hlen hkeys hvals hperm ih =>
    intro wf
    cases wf with
    | obj hnd hwf =>
      rw [normalize_obj, normalize_obj]
      have hkeq : xs.map Prod.fst = zs.map Prod.fst :=
        map_eq_map_of_zip _ _ _ _ hlen (fun p hp => hkeys p hp)
      have hmap : xs.map (fun kv => (kv.1, ClientAgent.normalize kv.2)) =
          zs.map (fun kv => (kv.1, ClientAgent.normalize kv.2)) := by
        refine map_eq_map_of_zip _ _ _ _ hlen ?_
        intro p hp
        have hv := ih p hp (hwf p.1 (List.of_mem_zip hp).1)
        rw [hkeys p hp, hv]
      have hndz : ((zs.map (fun kv => (kv.1, ClientAgent.normalize kv.2))).map Prod.fst).Nodup := by
        rw [List.map_map]
        have hcomp : (Prod.fst ∘ fun kv : String × ClientAgent.Json =>
            (kv.1, ClientAgent.normalize kv.2)) = Prod.fst := rfl
        rw [hcomp, ← hkeq]
        exact hnd
      have hsort := sortEntries_eq_of_perm
        (hperm.map (fun kv => (kv.1, ClientAgent.normalize kv.2))) hndz
      rw [hmap, hsort]

/-- C4: task signing is deterministic over the logical object: any two
task objects that are equal as JSON values (same maps, regardless of
key insertion order, recursively) canonically serialize to the same
byte string in `_sign_task`, so the two signing runs sign the same
bytes; the serializer emits object keys sorted lexicographically at
every level and uses the whitespace-free separators. -/
theorem canonical_serialization_deterministic :
    ∀ (a b : ClientAgent.Json), ClientAgent.WFJson a → ClientAgent.JEqv a b →
      ClientAgent.dumpsCanonical a = ClientAgent.dumpsCanonical b := by
  intro a b wf h
  unfold ClientAgent.dumpsCanonical
  rw [normalize_eq_of_jeqv h wf]

/-- Witness for C4: two concrete task objects with permuted keys (also
inside a nested object) serialize to the same canonical string. -/
theorem canonical_serialization_deterministic_witness :
    ClientAgent.dumpsCanonical
        (.obj [("b", .obj [("y", .num 2), ("x", .num 1)]), ("a", .str "v")]) =
      ClientAgent.dumpsCanonical
        (.obj [("a", .str "v"), ("b", .obj [("x", .num 1), ("y", .num 2)])]) :=
  canonical_serialization_deterministic _ _
    (by
      refine ClientAgent.WFJson.obj (by decide) ?_
      intro kv hkv
      simp only [List.mem_cons, List.not_mem_nil, or_false] at hkv
      rcases hkv with rfl | rfl
      · refine ClientAgent.WFJson.obj (by decide) ?_
        intro kv₂ hkv₂
        simp only [List.mem_cons, List.not_mem_nil, or_false] at hkv₂
        rcases hkv₂ with rfl | rfl
        · exact ClientAgent.WFJson.num 2
        · exact ClientAgent.WFJson.num 1
      · exact ClientAgent.WFJson.str "v")
    (by
      refine @ClientAgent.JEqv.obj
        [("b", .obj [("y", .num 2), ("x", .num 1)]), ("a", .str "v")]
        [("b", .obj [("x", .num 1), ("y", .num 2)]), ("a", .str "v")]
        [("a", .str "v"), ("b", .obj [("x", .num 1), ("y", .num 2)])]
        rfl ?_ ?_ ?_
      · intro p hp
        simp only [List.zip_cons_cons, List.zip_nil_right, List.mem_cons,
          List.not_mem_nil, or_false] at hp
        rcases hp with rfl | rfl <;> rfl
      · intro p hp
        simp only [List.zip_cons_cons, List.zip_nil_right, List.mem_cons,
          List.not_mem_nil, or_false] at hp
        rcases hp with rfl | rfl
        · refine @ClientAgent.JEqv.obj
            [("y", .num 2), ("x", .num 1)]
            [("y", .num 2), ("x", .num 1)]
            [("x", .num 1), ("y", .num 2)]
            rfl ?_ ?_ (List.Perm.swap ("x", ClientAgent.Json.num 1) ("y", ClientAgent.Json.num 2) [])
          · intro q hq
            simp only [List.zip_cons_cons, List.zip_nil_right, List.mem_cons,
              List.not_mem_nil, or_false] at hq
            rcases hq with rfl | rfl <;> rfl
          · intro q hq
            simp only [List.zip_cons_cons, List.zip_nil_right, List.mem_cons,
              List.not_mem_nil, or_false] at hq
            rcases hq with rfl | rfl
            · exact ClientAgent.JEqv.num 2
            · exact ClientAgent.JEqv.num 1
        · exact ClientAgent.JEqv.str "v"
      · exact List.Perm.swap ("a", ClientAgent.Json.str "v")
          ("b", ClientAgent.Json.obj [("x", ClientAgent.Json.num 1), ("y", ClientAgent.Json.num 2)]) [])

/-- C5: signing fails closed: `_sign_task` returns a signed wrapper
exactly when the task object is truthy and both fallible steps (the
Ed25519 signature over the canonical serialization and the base64
encoding) succeeded, and the wrapper is then precisely
`{task, signature, algorithm: "Ed25519"}`; whenever any step raises,
the result is `None` and no unsigned or partial wrapper escapes. -/
theorem sign_task_fails_closed :
    ∀ (ed25519_sign b64encode : String → Option String)
      (task_object : ClientAgent.Json) (w : ClientAgent.SignedTaskW),
      ClientAgent.sign_task ed25519_sign b64encode task_object = some w ↔
        (ClientAgent.isFalsy task_object = false ∧
         ∃ sig sb, ed25519_sign (ClientAgent.dumpsCanonical task_object) = some sig ∧
           b64encode sig = some sb ∧ w = ⟨task_object, sb, "Ed25519"⟩) := by
  intro es b64 t w
  cases hf : ClientAgent.isFalsy t with
  | true => simp [ClientAgent.sign_task, hf]
  | false =>
    cases hsig : es (ClientAgent.dumpsCanonical t) with
    | none => simp [ClientAgent.sign_task, hf, hsig]
    | some sig =>
      cases hb : b64 sig with
      | none => simp [ClientAgent.sign_task, hf, hsig, hb]
      | some sb =>
        simp only [ClientAgent.sign_task, hf, hsig, hb, Bool.false_eq_true, if_false,
          Option.some.injEq, true_and]
        constructor
        · intro h
          exact ⟨sig, sb, rfl, hb, h.symm⟩
        · rintro ⟨sig₂, sb₂, rfl, hb₂, rfl⟩
          rw [hb] at hb₂
          simp only [Option.some.injEq] at hb₂
          subst hb₂
          rfl

/-- C10: `_sign_task` returns `None` for every falsy task object —
whatever the signing and encoding oracles would return, including
oracles that always succeed — so only a truthy task object can
produce a signed wrapper. -/
theorem sign_task_none_on_falsy :
    ∀ (ed25519_sign b64encode : String → Option String)
      (task_object : ClientAgent.Json),
      ClientAgent.isFalsy task_object = true →
      ClientAgent.sign_task ed25519_sign b64encode task_object = none := by
  intro es b64 t hf
  simp [ClientAgent.sign_task, hf]

/-- Witness for C10: the empty object is falsy and is not signed even
by oracles that succeed on every input. -/
theorem sign_task_none_on_falsy_witness :
    ClientAgent.isFalsy (.obj []) = true ∧
    ClientAgent.sign_task (fun s => some s) (fun s => some s) (.obj []) = none :=
  ⟨rfl, sign_task_none_on_falsy (fun s => some s) (fun s => some s) (.obj []) rfl⟩

/-- C8: the orchestrator never alters a signed task: whenever the
`/chat_turn` response carries a signed task it equals the wrapper the
signer returned field for field (the inner task object included); for
`BOOK_` tasks with a non-empty user Authorization token the response
returns that token only in the sibling `user_auth_token` field next to
the untouched wrapper, and for non-`BOOK_` tasks `user_auth_token` is
empty. -/
theorem orchestrator_preserves_signed_task :
    ∀ (ar : Option String) (st : ClientAgent.Json) (w : ClientAgent.SignedTaskW)
      (auth : Option String),
      (∀ w₂, (Orchestrator.handle_chat_turn ar st (some w) auth).signed_task = some w₂ →
        w₂.task = w.task ∧ w₂.signature = w.signature ∧ w₂.algorithm = w.algorithm ∧
        w₂ = w) ∧
      (Orchestrator.startswith (Orchestrator.task_name_of w.task) "BOOK_" = true →
        ∀ tok, auth = some tok → tok ≠ "" →
          (Orchestrator.handle_chat_turn ar st (some w) auth).signed_task = some w ∧
          (Orchestrator.handle_chat_turn ar st (some w) auth).user_auth_token = some tok) ∧
      (Orchestrator.startswith (Orchestrator.task_name_of w.task) "BOOK_" = false →
        (Orchestrator.handle_chat_turn ar st (some w) auth).signed_task = some w ∧
        (Orchestrator.handle_chat_turn ar st (some w) auth).user_auth_token = none) := by
  intro ar st w auth
  refine ⟨?_, ?_, ?_⟩
  · intro w₂ h
    cases hb : Orchestrator.startswith (Orchestrator.task_name_of w.task) "BOOK_" with
    | true =>
      cases auth with
      | none => simp [Orchestrator.handle_chat_turn, hb] at h
      | some tok =>
        by_cases ht : tok = ""
        · simp [Orchestrator.handle_chat_turn, hb, ht] at h
        · simp only [Orchestrator.handle_chat_turn, hb, if_true, if_neg ht,
            Option.some.injEq] at h
          subst h
          exact ⟨rfl, rfl, rfl, rfl⟩
    | false =>
      simp only [Orchestrator.handle_chat_turn, hb, Bool.false_eq_true, if_false,
        Option.some.injEq] at h
      subst h
      exact ⟨rfl, rfl, rfl, rfl⟩
  · intro hb tok htok ht
    subst htok
    simp [Orchestrator.handle_chat_turn, hb, ht]
  · intro hb
    simp [Orchestrator.handle_chat_turn, hb]

/-- Witness for C8: a concrete signed `BOOK_FLIGHT` task is returned
untouched with the user token in the sibling field. -/
theorem orchestrator_preserves_signed_task_witness :
    (Orchestrator.handle_chat_turn none (.obj [])
      (some ⟨.obj [("task_name", .str "BOOK_FLIGHT"), ("item_id", .str "IT1"),
                   ("price", .num 650)], "c2lnbmF0dXJl", "Ed25519"⟩)
      (some "Bearer user-token")).signed_task =
      some ⟨.obj [("task_name", .str "BOOK_FLIGHT"), ("item_id", .str "IT1"),
                  ("price", .num 650)], "c2lnbmF0dXJl", "Ed25519"⟩ ∧
    (Orchestrator.handle_chat_turn none (.obj [])
      (some ⟨.obj [("task_name", .str "BOOK_FLIGHT"), ("item_id", .str "IT1"),
                   ("price", .num 650)], "c2lnbmF0dXJl", "Ed25519"⟩)
      (some "Bearer user-token")).user_auth_token = some "Bearer user-token" :=
  (orchestrator_preserves_signed_task none (.obj [])
      ⟨.obj [("task_name", .str "BOOK_FLIGHT"), ("item_id", .str "IT1"),
             ("price", .num 650)], "c2lnbmF0dXJl", "Ed25519"⟩
      (some "Bearer user-token")).2.1
    (by decide) "Bearer user-token" rfl (by decide)

end AgentApi
